import Mathlib

/-
Verification of the blob-creation relay handler in src/function_app.py.

The file shallowly embeds the handler `file_drop_trigger` (lines 28-82 of
function_app.py).  External services (the blob client, the lease, the
queue output binding) are modelled by an oracle `World` that fixes the
outcome each external call would have if it were reached.  Python
exceptions are modelled by the inductive `PyExc`; every constructor of
`PyExc` stands for a subclass of Python's `Exception`, so the
`except Exception` clause in line 78 catches all of them.

Two facts about the source drive much of what follows:
  * line 67 passes `DefaultAzureCredential(_)` where `_` is a name that is
    bound nowhere in the module (and is not a builtin), so evaluating the
    argument raises NameError before `BlobClient.from_blob_url` or
    `acquire_lease` can run;
  * line 46 calls `event.get_json()` before the `try` block of line 64, so
    a payload that fails to parse (or parses to a non-dict, making the
    `.get` calls of lines 48-57 raise) propagates out of the handler.
-/

namespace EventTrigger

/-- JSON values, as produced by Python's `json.loads` and consumed by
`json.dumps`.  Numbers are modelled as integers, which covers every field
the handler touches (`contentLength` is a byte count). -/
inductive JVal where
  | null : JVal
  | bool (b : Bool) : JVal
  | num (n : Int) : JVal
  | str (s : String) : JVal
  | arr (xs : List JVal) : JVal
  | obj (fs : List (String × JVal)) : JVal
deriving Repr

/-- Hexadecimal digit characters, lowercase as emitted by `json.dumps`. -/
def hexDigit (n : Nat) : Char :=
  if n < 10 then Char.ofNat (48 + n) else Char.ofNat (87 + n)

/-- Four hexadecimal digits, for a `\uXXXX` escape. -/
def hex4 (n : Nat) : String :=
  String.mk [hexDigit (n / 4096 % 16), hexDigit (n / 256 % 16),
             hexDigit (n / 16 % 16), hexDigit (n % 16)]

/-- The `\uXXXX` escape of a code point, using a surrogate pair above
the basic multilingual plane, as `json.dumps` does with its default
`ensure_ascii=True`. -/
def uEscape (n : Nat) : String :=
  if n < 65536 then "\\u" ++ hex4 n
  else
    let m := n - 65536
    "\\u" ++ hex4 (55296 + m / 1024) ++ "\\u" ++ hex4 (56320 + m % 1024)

/-- How `json.dumps` renders one character inside a string literal:
short escapes for the usual control characters, `\uXXXX` for the other
characters outside the printable ASCII range, the character itself
otherwise. -/
def escapeChar (c : Char) : String :=
  if c = '"' then "\\\""
  else if c = '\\' then "\\\\"
  else if c = '\n' then "\\n"
  else if c = '\t' then "\\t"
  else if c = '\r' then "\\r"
  else if c.toNat = 8 then "\\b"
  else if c.toNat = 12 then "\\f"
  else if c.toNat < 32 || c.toNat > 126 then uEscape c.toNat
  else String.singleton c

/-- A JSON string literal as written by `json.dumps`. -/
def dumpStr (s : String) : String :=
  "\"" ++ String.join (s.data.map escapeChar) ++ "\""

mutual

/-- `json.dumps` with its default arguments: item separator `", "`,
key separator `": "`, insertion order preserved. -/
def dumps : JVal → String
  | .null => "null"
  | .bool b => cond b "true" "false"
  | .num n => toString n
  | .str s => dumpStr s
  | .arr xs => "[" ++ dumpsList xs ++ "]"
  | .obj fs => "\x7b" ++ dumpsFields fs ++ "\x7d"

/-- The comma-separated items of a JSON array. -/
def dumpsList : List JVal → String
  | [] => ""
  | [x] => dumps x
  | x :: y :: xs => dumps x ++ ", " ++ dumpsList (y :: xs)

/-- The comma-separated `key: value` pairs of a JSON object. -/
def dumpsFields : List (String × JVal) → String
  | [] => ""
  | [(k, v)] => dumpStr k ++ ": " ++ dumps v
  | (k, v) :: f :: fs => dumpStr k ++ ": " ++ dumps v ++ ", " ++ dumpsFields (f :: fs)

end

/-- A parsed JSON object (a Python dict after `json.loads`); keys are
unique after parsing, duplicates having been collapsed by the parser. -/
def JDict : Type := List (String × JVal)

/-- Python's `dict.get(key)`: the stored value, or `None` when the key is
absent.  `none` here plays the role of Python's `None`. -/
def pyGet (d : JDict) (k : String) : Option JVal :=
  (List.find? (fun kv => kv.1 = k) d).map (fun kv => kv.2)

/-- Python exceptions that can arise in the handler.  Every constructor
models a subclass of `Exception`, so the catch-all of line 78 matches
each of them. -/
inductive PyExc where
  | nameError : PyExc
  | resourceExists : PyExc
  | resourceNotFound : PyExc
  | httpResponseError (code : Nat) : PyExc
  | valueError (msg : String) : PyExc
  | other (msg : String) : PyExc
deriving DecidableEq, Repr

/-- The envelope attributes of `func.EventGridEvent` that the handler
reads: `event.id`, `event.subject`, `event.topic`, `event.event_type`. -/
structure Event where
  id : String
  subject : String
  topic : String
  event_type : String
deriving DecidableEq, Repr

/-- Outcomes of the external calls the handler would make if control
reached them: `BlobClient.from_blob_url`, `acquire_lease`, `msg.set`,
`lease.release`.  The handler consults a field only when the
corresponding call site is actually reached. -/
structure World where
  fromBlobUrl : Except PyExc Unit
  acquireLease : Except PyExc Unit
  msgSet : Except PyExc Unit
  leaseRelease : Except PyExc Unit
deriving Repr

/-- Python's `subject.split("/")` for the one-character separator used in
line 47, over the character list of the subject: separators are not
grouped, and empty segments are kept, exactly as `str.split` with an
explicit separator behaves. -/
def splitChars (sep : Char) : List Char → List String
  | [] => [""]
  | c :: cs =>
    let rest := splitChars sep cs
    if c = sep then "" :: rest
    else (String.singleton c ++ rest.headD "") :: rest.tail

/-- `s.split(sep)` on a Lean string. -/
def pySplit (sep : Char) (s : String) : List String :=
  splitChars sep s.data

/-- The value of `event.subject.split("/")[-1]` (line 47); the default is
never used because the split list is never empty. -/
def lastSegment (s : String) : String :=
  (pySplit '/' s).getLast?.getD ""

/-- The dict literal of lines 50-61, in source order.  Line 59 of
function_app.py spells the key of the subject field `"subkect"`. -/
def build_fields (ev : Event) (event_data : JDict) (blob_name : String) :
    List (String × JVal) :=
  [("id", JVal.str ev.id),
   ("source", JVal.str "file"),
   ("blob_name", JVal.str blob_name),
   ("blob_url", (pyGet event_data "url").getD JVal.null),
   ("blob_type", (pyGet event_data "blobType").getD JVal.null),
   ("content_type", (pyGet event_data "contentType").getD JVal.null),
   ("content_length", (pyGet event_data "contentLength").getD JVal.null),
   ("topic", JVal.str ev.topic),
   ("subkect", JVal.str ev.subject),
   ("event_type", JVal.str ev.event_type)]

/-- The record serialized in line 49. -/
def build_record (ev : Event) (event_data : JDict) (blob_name : String) : JVal :=
  JVal.obj (build_fields ev event_data blob_name)

/-- The binding of the name `_` in the scope of line 67: `_` is assigned
nowhere in function_app.py, is not a parameter of `file_drop_trigger`,
and is not a Python builtin outside the interactive interpreter, so the
lookup finds nothing and raises NameError. -/
def underscoreBinding : Option Unit := none

/-- What the `try` block produced. -/
structure TryOutcome where
  messages : List String
  leaseHeld : Bool
  acquireAttempted : Bool
  exc : Option PyExc
deriving DecidableEq, Repr

/-- Lines 65-70, the body of the `try` block.  The keyword arguments of
`BlobClient.from_blob_url` are evaluated before the call itself, and
`credential=DefaultAzureCredential(_)` begins by looking up the unbound
name `_`; the later steps are modelled from the source all the same, so
the control flow past that point stays visible. -/
def tryBody (w : World) (result : String) : TryOutcome :=
  match underscoreBinding with
  | none =>
    { messages := [], leaseHeld := false, acquireAttempted := false,
      exc := some PyExc.nameError }
  | some _ =>
    match w.fromBlobUrl with
    | .error e =>
      { messages := [], leaseHeld := false, acquireAttempted := false, exc := some e }
    | .ok _ =>
      match w.acquireLease with
      | .error e =>
        { messages := [], leaseHeld := false, acquireAttempted := true, exc := some e }
      | .ok _ =>
        match w.msgSet with
        | .error e =>
          { messages := [], leaseHeld := true, acquireAttempted := true, exc := some e }
        | .ok _ =>
          { messages := [dumps (JVal.str result)], leaseHeld := true,
            acquireAttempted := true, exc := none }

/-- Lines 71-79: the three `except` clauses.  `ResourceExistsError` is
logged at info level, `ResourceNotFoundError` at error level, and
`except Exception` catches every remaining modelled exception; in all
three cases the exception stops propagating. -/
def handleExcept : Option PyExc → Option PyExc
  | none => none
  | some PyExc.resourceExists => none
  | some PyExc.resourceNotFound => none
  | some _ => none

/-- Lines 80-82: the `finally` block.  When a lease is held it is
released; an exception raised by `lease.release()` inside `finally`
replaces any pending exception and propagates.  Returns the exception
leaving the handler and whether the release completed. -/
def finallyBlock (w : World) (leaseHeld : Bool) (pending : Option PyExc) :
    Option PyExc × Bool :=
  if leaseHeld then
    match w.leaseRelease with
    | .error e => (some e, false)
    | .ok _ => (pending, true)
  else (pending, false)

/-- The observable outcome of one invocation of the handler. -/
structure RunResult where
  messages : List String
  raised : Option PyExc
  builtResult : Option String
  acquireAttempted : Bool
  leaseEverHeld : Bool
  leaseReleased : Bool
deriving DecidableEq, Repr

/-- Lines 45-82: the body of `file_drop_trigger`.  `getJson` is the
outcome of line 46's `event.get_json()` together with the `.get` reads of
lines 48-57: `Except.error` covers a payload that fails to parse as well
as one that parses to a non-dict, whose `.get` raises; both happen before
the `try` block of line 64 and therefore propagate.  The `[-1]` indexing
of line 47 is modelled by `getLast?`, with the IndexError branch for an
empty split list kept explicit. -/
def file_drop_trigger (w : World) (ev : Event) (getJson : Except PyExc JDict) :
    RunResult :=
  match getJson with
  | .error e =>
    { messages := [], raised := some e, builtResult := none,
      acquireAttempted := false, leaseEverHeld := false, leaseReleased := false }
  | .ok event_data =>
    match (pySplit '/' ev.subject).getLast? with
    | none =>
      { messages := [], raised := some (PyExc.other "IndexError"), builtResult := none,
        acquireAttempted := false, leaseEverHeld := false, leaseReleased := false }
    | some blob_name =>
      let result := dumps (build_record ev event_data blob_name)
      let t := tryBody w result
      let fin := finallyBlock w t.leaseHeld (handleExcept t.exc)
      { messages := t.messages, raised := fin.1, builtResult := some result,
        acquireAttempted := t.acquireAttempted, leaseEverHeld := t.leaseHeld,
        leaseReleased := fin.2 }

/-- The worked notification of the specification: a blob-creation event
whose subject ends in `report-2024.csv`. -/
def exampleEvent : Event :=
  { id := "evt-1",
    subject := "/blobServices/default/containers/uploads/blobs/report-2024.csv",
    topic := "/subscriptions/s/resourceGroups/rg/providers/Microsoft.Storage/storageAccounts/acct",
    event_type := "Microsoft.Storage.BlobCreated" }

/-- A fully populated payload for `exampleEvent`. -/
def exampleData : JDict :=
  [("url", JVal.str "https://acct.blob.core.windows.net/uploads/report-2024.csv"),
   ("blobType", JVal.str "BlockBlob"),
   ("contentType", JVal.str "text/csv"),
   ("contentLength", JVal.num 1024)]

/-- The same payload with the optional `contentLength` field absent. -/
def noLenData : JDict :=
  [("url", JVal.str "https://acct.blob.core.windows.net/uploads/report-2024.csv"),
   ("blobType", JVal.str "BlockBlob"),
   ("contentType", JVal.str "text/csv")]

/-- An oracle in which every external call would succeed (in particular no
concurrent lease is held). -/
def exampleWorld : World :=
  { fromBlobUrl := Except.ok (), acquireLease := Except.ok (),
    msgSet := Except.ok (), leaseRelease := Except.ok () }

/-- An oracle in which `acquire_lease` would report that the blob is
already exclusively leased. -/
def conflictWorld : World :=
  { exampleWorld with acquireLease := Except.error PyExc.resourceExists }

/-- An oracle in which `acquire_lease` would report that the blob no
longer exists. -/
def notFoundWorld : World :=
  { exampleWorld with acquireLease := Except.error PyExc.resourceNotFound }

/-- An oracle in which `lease.release()` would fail. -/
def releaseFailWorld : World :=
  { exampleWorld with leaseRelease := Except.error (PyExc.httpResponseError 500) }

/-- The example event with an empty subject. -/
def emptySubjectEvent : Event :=
  { exampleEvent with subject := "" }

/-- Python's `str.split` with an explicit separator never returns an empty
list: there is always at least the final (possibly empty) segment, so the
`[-1]` indexing of line 47 is always defined. -/
theorem splitChars_ne_nil (sep : Char) (cs : List Char) : splitChars sep cs ≠ [] := by
  cases cs with
  | nil => simp [splitChars]
  | cons c cs =>
    simp only [splitChars]
    by_cases hc : c = sep <;> simp [hc]

/-- Appending a separator appends one empty segment to the split. -/
theorem splitChars_concat_sep (sep : Char) (cs : List Char) :
    splitChars sep (cs ++ [sep]) = splitChars sep cs ++ [""] := by
  induction cs with
  | nil => simp [splitChars]
  | cons c cs ih =>
    cases h : splitChars sep cs with
    | nil => exact absurd h (splitChars_ne_nil sep cs)
    | cons hd tl =>
      simp only [List.cons_append, splitChars, ih, h]
      by_cases hc : c = sep <;> simp [hc, ih, h]


/-- Computation of a run whose payload was obtained successfully: the
record is built and serialized, the `try` block raises NameError on the
unbound `_` before any external call, the catch-all of line 78 swallows
it, and the `finally` block finds no lease to release. -/
theorem run_ok (w : World) (ev : Event) (d : JDict) :
    file_drop_trigger w ev (Except.ok d) =
      { messages := [], raised := none,
        builtResult := some (dumps (build_record ev d (lastSegment ev.subject))),
        acquireAttempted := false, leaseEverHeld := false, leaseReleased := false } := by
  have hne : pySplit '/' ev.subject ≠ [] := splitChars_ne_nil '/' ev.subject.data
  obtain ⟨bn, hbn⟩ := Option.isSome_iff_exists.mp (List.getLast?_isSome.mpr hne)
  unfold file_drop_trigger
  rw [hbn]
  simp [tryBody, underscoreBinding, handleExcept, finallyBlock, lastSegment, hbn]

/-- Computation of a run whose payload extraction raised: the exception
propagates untouched, nothing is built and nothing is emitted. -/
theorem run_error (w : World) (ev : Event) (e : PyExc) :
    file_drop_trigger w ev (Except.error e) =
      { messages := [], raised := some e, builtResult := none,
        acquireAttempted := false, leaseEverHeld := false, leaseReleased := false } := rfl

/-- C1: the claim states that whenever lease acquisition succeeds the
handler writes exactly one queue message, the JSON serialization of a
record whose fields include `subject` copied verbatim.  On the code no
run ever emits a message — evaluating the unbound name `_` in line 67
raises NameError before the lease can be acquired — and the record the
handler does build names its subject field `subkect` (line 59), not
`subject`; the spec's blob-name example itself holds. -/
theorem file_drop_emits_no_message_and_misnames_subject :
    (∀ (w : World) (ev : Event) (gj : Except PyExc JDict),
        (file_drop_trigger w ev gj).messages = []) ∧
      (build_fields exampleEvent exampleData "report-2024.csv").map Prod.fst =
        ["id", "source", "blob_name", "blob_url", "blob_type", "content_type",
         "content_length", "topic", "subkect", "event_type"] ∧
      lastSegment exampleEvent.subject = "report-2024.csv" := by
  refine ⟨fun w ev gj => ?_, by decide, by decide⟩
  cases gj with
  | error e => rfl
  | ok d => rw [run_ok]

/-- C2: a queue message is produced only if the lease was successfully
acquired, and whenever acquisition fails no message is produced.  (In
fact acquisition never succeeds, so no run ever has a lease to release
and the invariant holds degenerately.) -/
theorem message_only_if_lease_acquired (w : World) (ev : Event)
    (gj : Except PyExc JDict) :
    ((file_drop_trigger w ev gj).leaseEverHeld = false →
        (file_drop_trigger w ev gj).messages = []) ∧
      ((file_drop_trigger w ev gj).messages ≠ [] →
        (file_drop_trigger w ev gj).leaseEverHeld = true) := by
  cases gj with
  | error e => rw [run_error]; exact ⟨fun _ => rfl, fun h => absurd rfl h⟩
  | ok d => rw [run_ok]; exact ⟨fun _ => rfl, fun h => absurd rfl h⟩

/-- Concrete instance of the C2 invariant at the specification's example
notification. -/
theorem message_only_if_lease_acquired_witness :
    (file_drop_trigger exampleWorld exampleEvent (Except.ok exampleData)).messages = [] :=
  (message_only_if_lease_acquired exampleWorld exampleEvent (Except.ok exampleData)).1
    (by rw [run_ok])

/-- C3 counterexample: the claim says every failure of the invocation, a
malformed payload included, is caught inside the handler; but
`event.get_json()` runs in line 46, before the `try` block of line 64, so
a payload that fails to parse propagates out of the handler. -/
theorem malformed_payload_propagates :
    ¬ (file_drop_trigger exampleWorld exampleEvent
        (Except.error (PyExc.valueError "Expecting value"))).raised = none := by
  rw [run_error]; simp

/-- C3 amended: every failure raised inside the `try` block is caught and
the handler returns normally on every event whose payload extraction
succeeds; only a failure in `event.get_json()` itself — which runs before
the `try` block — propagates to the caller. -/
theorem parsed_payload_never_raises (w : World) (ev : Event) (d : JDict) :
    (file_drop_trigger w ev (Except.ok d)).raised = none := by
  rw [run_ok]

/-- C4: on every notification whose payload extraction succeeds and under
every oracle for which lease acquisition would raise a conflict (blob
already exclusively leased) or not-found (blob missing), zero queue
messages are produced and the invocation completes without raising.
(Degenerately so: the NameError of line 67 is swallowed by the catch-all
before `acquire_lease` could report either condition, and no run ever
emits.) -/
theorem lease_conflict_or_missing_no_message (w : World) (ev : Event) (d : JDict)
    (_h : w.acquireLease = Except.error PyExc.resourceExists ∨
          w.acquireLease = Except.error PyExc.resourceNotFound) :
    (file_drop_trigger w ev (Except.ok d)).messages = [] ∧
      (file_drop_trigger w ev (Except.ok d)).raised = none := by
  rw [run_ok]; exact ⟨rfl, rfl⟩

/-- Concrete instances of C4: the example notification under an oracle
where acquisition would report a conflict, and under one where it would
report the blob missing. -/
theorem lease_conflict_or_missing_no_message_witness :
    ((file_drop_trigger conflictWorld exampleEvent (Except.ok exampleData)).messages = [] ∧
        (file_drop_trigger conflictWorld exampleEvent (Except.ok exampleData)).raised = none) ∧
      ((file_drop_trigger notFoundWorld exampleEvent (Except.ok exampleData)).messages = [] ∧
        (file_drop_trigger notFoundWorld exampleEvent (Except.ok exampleData)).raised = none) :=
  ⟨lease_conflict_or_missing_no_message conflictWorld exampleEvent exampleData (Or.inl rfl),
   lease_conflict_or_missing_no_message notFoundWorld exampleEvent exampleData (Or.inr rfl)⟩

/-- C5: the `finally` block of lines 80-82 releases a held lease on every
exit path — whatever exception is pending, so after the success path, a
failed emission, or a caught exception alike — whenever the release call
itself succeeds; and no run leaks a lease: every run either released the
lease or never held one.  (The second part holds degenerately, since no
execution ever obtains a lease handle: `acquire_lease` is unreachable
behind the NameError of line 67.) -/
theorem lease_release_on_every_exit_path :
    (∀ (w : World) (pending : Option PyExc), w.leaseRelease = Except.ok () →
        finallyBlock w true pending = (pending, true)) ∧
      (∀ (w : World) (ev : Event) (gj : Except PyExc JDict),
        (file_drop_trigger w ev gj).leaseReleased = true ∨
          (file_drop_trigger w ev gj).leaseEverHeld = false) := by
  refine ⟨fun w pending h => by simp [finallyBlock, h], fun w ev gj => ?_⟩
  cases gj with
  | error e => right; rw [run_error]
  | ok d => right; rw [run_ok]

/-- Concrete instance of C5: with a release call that succeeds, the
`finally` block releases the held lease and keeps the pending outcome. -/
theorem lease_release_on_every_exit_path_witness :
    finallyBlock exampleWorld true (some PyExc.nameError) = (some PyExc.nameError, true) :=
  lease_release_on_every_exit_path.1 exampleWorld (some PyExc.nameError) rfl

/-- C6: with `contentLength` absent from the payload, the record the
handler builds does carry a null `content_length` and the invocation does
not fail; but, contrary to the claim, no message is emitted — for this
input as for every other, the lease is never acquired. -/
theorem missing_content_length_null_but_no_emit :
    pyGet noLenData "contentLength" = none ∧
      pyGet (build_fields exampleEvent noLenData (lastSegment exampleEvent.subject))
          "content_length" = some JVal.null ∧
      (file_drop_trigger exampleWorld exampleEvent (Except.ok noLenData)).raised = none ∧
      (file_drop_trigger exampleWorld exampleEvent (Except.ok noLenData)).messages = [] := by
  refine ⟨rfl, rfl, by rw [run_ok], by rw [run_ok]⟩

/-- C7: building and serializing the relay record is a total pure
transformation of the notification: for every payload dict (fields
present or absent in any combination) and every oracle, the handler
completes the build step and stores exactly the serialization of
`build_record`, independent of the external world. -/
theorem build_and_serialize_total (w : World) (ev : Event) (d : JDict) :
    (file_drop_trigger w ev (Except.ok d)).builtResult =
      some (dumps (build_record ev d (lastSegment ev.subject))) := by
  rw [run_ok]

/-- C8: determinism holds — the outcome of a run is a function of the
notification alone, the oracle never being consulted — but the two
structurally identical queue messages the claim promises never exist:
a replayed notification yields zero messages on both runs, because the
lease is never acquired. -/
theorem run_deterministic_but_emits_nothing :
    (∀ (w w' : World) (ev : Event) (gj : Except PyExc JDict),
        file_drop_trigger w ev gj = file_drop_trigger w' ev gj) ∧
      (file_drop_trigger exampleWorld exampleEvent (Except.ok exampleData)).messages = [] := by
  constructor
  · intro w w' ev gj
    cases gj with
    | error e => rfl
    | ok d => rw [run_ok, run_ok]
  · rw [run_ok]

/-- C9: deriving `blob_name` never fails: splitting on `/` always yields
a non-empty list, and for a subject that is empty or ends with `/` the
blob name is the empty string while the handler still builds the record,
returns normally, and would emit only on lease success. -/
theorem blob_name_derivation_total :
    (∀ (sep : Char) (cs : List Char), splitChars sep cs ≠ []) ∧
      (∀ (w : World) (ev : Event) (d : JDict),
        ev.subject = "" ∨ (∃ t, ev.subject = t ++ "/") →
          lastSegment ev.subject = "" ∧
          (file_drop_trigger w ev (Except.ok d)).builtResult =
            some (dumps (build_record ev d "")) ∧
          (file_drop_trigger w ev (Except.ok d)).raised = none ∧
          ((file_drop_trigger w ev (Except.ok d)).leaseEverHeld = true →
            (file_drop_trigger w ev (Except.ok d)).messages ≠ [])) := by
  refine ⟨splitChars_ne_nil, fun w ev d h => ?_⟩
  have hseg : lastSegment ev.subject = "" := by
    rcases h with h | ⟨t, ht⟩
    · rw [h]; decide
    · rw [ht]
      unfold lastSegment pySplit
      rw [String.data_append]
      have hdata : ("/" : String).data = ['/'] := rfl
      rw [hdata, splitChars_concat_sep, List.getLast?_concat]
      rfl
  refine ⟨hseg, ?_, ?_, ?_⟩
  · rw [run_ok, hseg]
  · rw [run_ok]
  · rw [run_ok]; intro hlease; exact absurd hlease (by simp)

/-- Concrete instance of C9 at an event with an empty subject. -/
theorem blob_name_derivation_total_witness :
    lastSegment emptySubjectEvent.subject = "" ∧
      (file_drop_trigger exampleWorld emptySubjectEvent (Except.ok exampleData)).builtResult =
        some (dumps (build_record emptySubjectEvent exampleData "")) ∧
      (file_drop_trigger exampleWorld emptySubjectEvent (Except.ok exampleData)).raised = none ∧
      ((file_drop_trigger exampleWorld emptySubjectEvent (Except.ok exampleData)).leaseEverHeld = true →
        (file_drop_trigger exampleWorld emptySubjectEvent (Except.ok exampleData)).messages ≠ []) :=
  blob_name_derivation_total.2 exampleWorld emptySubjectEvent exampleData (Or.inl rfl)

/-- C10 counterexample: the claim calls a raising `lease.release()` the
one failure path on which the handler does not terminate normally; here
is a run that terminates abnormally although no lease was ever held and
no release was performed — its payload extraction raised before the
`try` block. -/
theorem abnormal_exit_without_release :
    (file_drop_trigger exampleWorld exampleEvent
        (Except.error (PyExc.other "AttributeError"))).raised ≠ none ∧
      (file_drop_trigger exampleWorld exampleEvent
        (Except.error (PyExc.other "AttributeError"))).leaseEverHeld = false ∧
      (file_drop_trigger exampleWorld exampleEvent
        (Except.error (PyExc.other "AttributeError"))).leaseReleased = false := by
  refine ⟨?_, by rw [run_error], by rw [run_error]⟩
  rw [run_error]; simp

/-- C10 amended: an exception raised by `lease.release()` inside the
`finally` block would indeed replace any pending exception and propagate
uncaught; but that call is unreachable — no run ever holds a lease — and
the failure path on which the handler actually terminates abnormally is a
raising `event.get_json()`, which involves no release at all. -/
theorem release_raise_propagates_but_unreachable :
    (∀ (w : World) (pending : Option PyExc) (e : PyExc),
        w.leaseRelease = Except.error e →
          finallyBlock w true pending = (some e, false)) ∧
      (∀ (w : World) (ev : Event) (gj : Except PyExc JDict),
        (file_drop_trigger w ev gj).leaseEverHeld = false) ∧
      (∀ (w : World) (ev : Event) (e : PyExc),
        (file_drop_trigger w ev (Except.error e)).raised = some e) := by
  refine ⟨fun w pending e he => ?_, fun w ev gj => ?_, fun w ev e => by rw [run_error]⟩
  · simp [finallyBlock, he]
  · cases gj with
    | error eg => rw [run_error]
    | ok d => rw [run_ok]

/-- Concrete instance of the C10 amendment: with a release that would
fail with an HTTP 500, the `finally` block would propagate that failure. -/
theorem release_raise_propagates_but_unreachable_witness :
    finallyBlock releaseFailWorld true none = (some (PyExc.httpResponseError 500), false) :=
  release_raise_propagates_but_unreachable.1 releaseFailWorld none
    (PyExc.httpResponseError 500) rfl

end EventTrigger
